import Mathlib

/-!
Shallow embedding of `strom` (src/strom/model.py): a pull-based pipeline engine.
Frames are opaque values; the Python `None` sentinel ("no-frame") is embedded as
`Option.none`, so a frame slot has type `Option α`.  Python exceptions are
embedded as an explicit error type threaded through `Except`.
-/

namespace Strom

/-- Exceptions that can escape the engine's operations:
`sourceClosed` is `SourceIsClosedException`, `indexError` is the `IndexError`
raised by `list.pop(0)` on an empty list, `queueEmpty` is `queue.Empty` raised
by `Queue.get_nowait`, and `gateFailed` is `GateFailedException` (whose message
is built from the offending frame and the gate's identity). -/
inductive StromError (α : Type) where
  | sourceClosed
  | indexError
  | queueEmpty
  | gateFailed (frame : α) (gateName : String)
  deriving DecidableEq, Repr

/-- `PipelineElement.call_handler`, argument-assembly part (model.py lines 15-24).
`hasSelf` embeds the runtime test `'self' in handler_signature.parameters`;
`handler_args` are the constructor-time positional arguments, `args` the runtime
arguments.  In the `self` branch Python unpacks `args_head, *args_tail` from the
captured arguments, which raises `ValueError` when they are empty (`none` here). -/
def args_for_handler (hasSelf : Bool) (handler_args : List α) (args : List α) :
    Option (List α) :=
  if hasSelf then
    match handler_args with
    | [] => none
    | args_head :: args_tail => some (args_head :: (args ++ args_tail))
  else
    some (args ++ handler_args)

/-- `PipelineElement.call_handler` (model.py lines 15-26): assemble the final
argument list, then invoke the handler with it and the captured keyword
arguments, returning the handler's result unchanged. -/
def call_handler (handler : List α → List (String × β) → γ) (hasSelf : Bool)
    (handler_args : List α) (handler_kwargs : List (String × β)) (args : List α) :
    Option γ :=
  (args_for_handler hasSelf handler_args args).map
    (fun args_final => handler args_final handler_kwargs)

/-- A stream element: `Transformer` (model.py 199-206) holds an arbitrary handler
whose result is returned unchanged (it may itself return the `None` sentinel);
`Gate` (model.py 221-238) holds a boolean predicate plus the `fatal` flag and a
name (only used in the `GateFailedException` message). -/
inductive Element (α : Type) where
  | transformer (handler : α → Option α)
  | gate (handler : α → Bool) (fatal : Bool) (name : String)

/-- `Transformer.transform` / `Gate.transform` (model.py 205-206 and 230-238).
A gate returns the frame unchanged when the predicate passes; on failure a
fatal gate raises `GateFailedException` and a non-fatal gate returns `None`. -/
def Element.transform : Element α → α → Except (StromError α) (Option α)
  | .transformer handler, frame => .ok (handler frame)
  | .gate handler fatal name, frame =>
    let frame_passes_gate := handler frame
    if !frame_passes_gate then
      if fatal then .error (.gateFailed frame name) else .ok none
    else
      .ok (some frame)

/-- Batch-mode (`all_at_once`) branch of `Source.is_closed` (model.py 139-140):
`not(self._data is None or self._data)` — open while `_data` is `None`
(unmaterialized) or non-empty, closed exactly when `_data` is an empty list. -/
def batch_is_closed : Option (List (Option α)) → Bool
  | none => false
  | some l => l.isEmpty

/-- Batch-mode branch of `Source.get_frame` (model.py 144-154): raise
`SourceIsClosedException` when closed; otherwise materialize `_data` from the
handler on first call, then `pop(0)` — front removal, raising `IndexError` on an
empty list.  Returns the result together with the updated `_data`. -/
def batch_get_frame (handler : List (Option α)) (data : Option (List (Option α))) :
    Except (StromError α) (Option α) × Option (List (Option α)) :=
  if batch_is_closed data then
    (.error .sourceClosed, data)
  else
    match data.getD handler with
    | [] => (.error .indexError, some [])
    | f :: rest => (.ok f, some rest)

/-- On-demand branch of `Source.is_closed` (model.py 141-142): it simply
delegates to the user-supplied `closer`, an arbitrary stateful callable.  We
embed the closer as the sequence of answers it returns, indexed by how many
times it has been called. -/
def on_demand_is_closed (closer : Nat → Bool) (call : Nat) : Bool :=
  closer call

/-- A `Stream` (model.py 32-106) whose source is a batch-mode `Source`:
`batch` is the collection the source handler returns at materialization,
`data` is the source's `_data` field, `elements` the ordered transformer/gate
sequence added with `add`. -/
structure Stream (α : Type) where
  batch : List (Option α)
  data : Option (List (Option α))
  elements : List (Element α)

/-- `Stream.is_closed` (model.py 68-70): delegates to the source. -/
def Stream.is_closed (s : Stream α) : Bool :=
  batch_is_closed s.data

/-- The element loop inside `Stream.get_frame` (model.py 62-64):
`for element in self.elements: if frame is None: break; frame = element.transform(frame)`.
The `None` test happens before each element is invoked, so a `None` frame
(from the source or from a dropping gate) short-circuits the rest. -/
def fold_elements : List (Element α) → Option α → Except (StromError α) (Option α)
  | [], frame => .ok frame
  | element :: rest, frame =>
    match frame with
    | none => .ok none
    | some f =>
      match element.transform f with
      | .error e => .error e
      | .ok frame2 => fold_elements rest frame2

/-- `Stream.get_frame` (model.py 55-66): pull one frame from the source, then
fold it through the elements.  The source's state advances even when a later
element raises. -/
def Stream.get_frame (s : Stream α) : Except (StromError α) (Option α) × Stream α :=
  match batch_get_frame s.batch s.data with
  | (.error e, d) => (.error e, { s with data := d })
  | (.ok frame, d) => (fold_elements s.elements frame, { s with data := d })

/-- Termination measure for the run loop: a successful pull strictly shrinks it. -/
def Stream.measure (s : Stream α) : Nat :=
  match s.data with
  | none => s.batch.length + 1
  | some l => l.length

theorem get_frame_measure_lt (s : Stream α) (hc : s.is_closed = false) :
    ((s.get_frame).2).measure < s.measure := by
  rcases s with ⟨batch, data, elements⟩
  match data, batch with
  | none, [] =>
    simp [Stream.get_frame, batch_get_frame, batch_is_closed, Stream.measure]
  | none, f :: rest =>
    cases hf : fold_elements elements f <;>
      simp [Stream.get_frame, batch_get_frame, batch_is_closed, Stream.measure, hf] <;>
      omega
  | some [], _ =>
    simp [Stream.is_closed, batch_is_closed] at hc
  | some (f :: rest), _ =>
    cases hf : fold_elements elements f <;>
      simp [Stream.get_frame, batch_get_frame, batch_is_closed, Stream.measure, hf]

/-- `Stream.run` (model.py 99-106): `while not self.is_closed(): frame =
self.get_frame(); if frame is not None: self.sink.process(frame)`.  The sink is
embedded as the (ordered) list of frames handed to it; the second component is
the exception, if any, that aborted the loop. -/
def Stream.run (s : Stream α) : List α × Option (StromError α) :=
  if hc : s.is_closed then
    ([], none)
  else
    match h : s.get_frame with
    | (.error e, _) => ([], some e)
    | (.ok none, s') => s'.run
    | (.ok (some frame), s') =>
      let r := s'.run
      (frame :: r.1, r.2)
termination_by s.measure
decreasing_by
  all_goals
    have hlt := get_frame_measure_lt s (by simpa using hc)
    rw [h] at hlt
    simpa using hlt

/-- The trace of `get_frame` results the run loop observes, in order: one entry
per loop iteration, ending either at closure or with the aborting exception. -/
def Stream.ticks (s : Stream α) : List (Except (StromError α) (Option α)) :=
  if hc : s.is_closed then
    []
  else
    match h : s.get_frame with
    | (.error e, _) => [.error e]
    | (.ok frame, s') => .ok frame :: s'.ticks
termination_by s.measure
decreasing_by
  have hlt := get_frame_measure_lt s (by simpa using hc)
  rw [h] at hlt
  simpa using hlt

/-- What a `get_frame` result contributes to the sink: only an ordinary frame,
never the no-frame sentinel and never an exception. -/
def sink_delivered (r : Except (StromError α) (Option α)) : Option α :=
  match r with
  | .ok (some f) => some f
  | _ => none

/-- `Stream.run` restated as structural recursion over the materialized
remainder of the source collection (bridge lemma target). -/
def run_list (es : List (Element α)) : List (Option α) → List α × Option (StromError α)
  | [] => ([], none)
  | f :: rest =>
    match fold_elements es f with
    | .error e => ([], some e)
    | .ok none => run_list es rest
    | .ok (some g) =>
      let r := run_list es rest
      (g :: r.1, r.2)

/-- `Stream.ticks` restated as structural recursion over the materialized
remainder of the source collection (bridge lemma target). -/
def ticks_list (es : List (Element α)) : List (Option α) → List (Except (StromError α) (Option α))
  | [] => []
  | f :: rest =>
    match fold_elements es f with
    | .error e => [.error e]
    | .ok frame => .ok frame :: ticks_list es rest

theorem run_eq (s : Stream α) :
    s.run = if s.is_closed then ([], none)
      else
        match s.get_frame with
        | (.error e, _) => ([], some e)
        | (.ok none, s') => s'.run
        | (.ok (some frame), s') => (frame :: s'.run.1, s'.run.2) := by
  rw [Stream.run]
  split
  · rename_i hc
    simp [hc]
  · rename_i hc
    split <;> rename_i heq <;> rw [heq]

theorem ticks_eq (s : Stream α) :
    s.ticks = if s.is_closed then []
      else
        match s.get_frame with
        | (.error e, _) => [.error e]
        | (.ok frame, s') => .ok frame :: s'.ticks := by
  rw [Stream.ticks]
  split
  · rename_i hc
    simp [hc]
  · rename_i hc
    split <;> rename_i heq <;> rw [heq]

theorem run_materialized (batch : List (Option α)) (es : List (Element α))
    (l : List (Option α)) :
    Stream.run ⟨batch, some l, es⟩ = run_list es l := by
  induction l with
  | nil => simp [run_eq, Stream.is_closed, batch_is_closed, run_list]
  | cons f rest ih =>
    rw [run_eq]
    simp only [Stream.is_closed, batch_is_closed, List.isEmpty_cons, if_false,
      Bool.false_eq_true]
    cases hf : fold_elements es f with
    | error e =>
      simp [Stream.get_frame, batch_get_frame, batch_is_closed, hf, run_list]
    | ok frame =>
      cases frame <;>
        simp [Stream.get_frame, batch_get_frame, batch_is_closed, hf, run_list, ih]

theorem run_fresh (batch : List (Option α)) (es : List (Element α)) (hb : batch ≠ []) :
    Stream.run ⟨batch, none, es⟩ = run_list es batch := by
  match batch with
  | [] => exact absurd rfl hb
  | f :: rest =>
    rw [run_eq]
    simp only [Stream.is_closed, batch_is_closed, if_false, Bool.false_eq_true]
    cases hf : fold_elements es f with
    | error e =>
      simp [Stream.get_frame, batch_get_frame, batch_is_closed, hf, run_list]
    | ok frame =>
      cases frame <;>
        simp [Stream.get_frame, batch_get_frame, batch_is_closed, hf, run_list,
          run_materialized]

theorem run_fresh_empty (es : List (Element α)) :
    Stream.run (⟨[], none, es⟩ : Stream α) = ([], some .indexError) := by
  rw [run_eq]
  simp [Stream.is_closed, batch_is_closed, Stream.get_frame, batch_get_frame]

theorem ticks_materialized (batch : List (Option α)) (es : List (Element α))
    (l : List (Option α)) :
    Stream.ticks ⟨batch, some l, es⟩ = ticks_list es l := by
  induction l with
  | nil => simp [ticks_eq, Stream.is_closed, batch_is_closed, ticks_list]
  | cons f rest ih =>
    rw [ticks_eq]
    simp only [Stream.is_closed, batch_is_closed, List.isEmpty_cons, if_false,
      Bool.false_eq_true]
    cases hf : fold_elements es f with
    | error e =>
      simp [Stream.get_frame, batch_get_frame, batch_is_closed, hf, ticks_list]
    | ok frame =>
      simp [Stream.get_frame, batch_get_frame, batch_is_closed, hf, ticks_list, ih]

theorem ticks_fresh (batch : List (Option α)) (es : List (Element α)) (hb : batch ≠ []) :
    Stream.ticks ⟨batch, none, es⟩ = ticks_list es batch := by
  match batch with
  | [] => exact absurd rfl hb
  | f :: rest =>
    rw [ticks_eq]
    simp only [Stream.is_closed, batch_is_closed, if_false, Bool.false_eq_true]
    cases hf : fold_elements es f with
    | error e =>
      simp [Stream.get_frame, batch_get_frame, batch_is_closed, hf, ticks_list]
    | ok frame =>
      simp [Stream.get_frame, batch_get_frame, batch_is_closed, hf, ticks_list,
        ticks_materialized]

theorem run_list_fst_eq_ticks (es : List (Element α)) (l : List (Option α)) :
    (run_list es l).1 = (ticks_list es l).filterMap sink_delivered := by
  induction l with
  | nil => simp [run_list, ticks_list]
  | cons f rest ih =>
    cases hf : fold_elements es f with
    | error e => simp [run_list, ticks_list, hf, sink_delivered]
    | ok frame =>
      cases frame <;> simp [run_list, ticks_list, hf, sink_delivered, ih]

/-- A no-frame entering the element loop short-circuits it: no element is
invoked (model.py 62-64 checks `frame is None` before each element). -/
theorem fold_elements_none (es : List (Element α)) :
    fold_elements es (none : Option α) = .ok none := by
  cases es <;> rfl

theorem fold_elements_append (es1 es2 : List (Element α)) (frame : Option α) :
    fold_elements (es1 ++ es2) frame =
      match fold_elements es1 frame with
      | .error e => .error e
      | .ok g => fold_elements es2 g := by
  induction es1 generalizing frame with
  | nil => rfl
  | cons e rest ih =>
    match frame with
    | none => simp [fold_elements, fold_elements_none]
    | some f =>
      simp only [List.cons_append, fold_elements]
      cases e.transform f <;> simp [ih]

/-- The frames `run` hands to the sink are exactly the ordinary (non-sentinel)
frames among the `get_frame` results it observes, in order. -/
theorem run_fst_eq_ticks (s : Stream α) :
    (s.run).1 = s.ticks.filterMap sink_delivered := by
  rcases s with ⟨batch, data, es⟩
  match data with
  | some l => rw [run_materialized, ticks_materialized, run_list_fst_eq_ticks]
  | none =>
    match batch with
    | [] =>
      rw [run_fresh_empty]
      rw [Stream.ticks]
      simp [Stream.is_closed, batch_is_closed, Stream.get_frame, batch_get_frame,
        sink_delivered]
    | f :: rest =>
      rw [run_fresh _ _ (by simp), ticks_fresh _ _ (by simp), run_list_fst_eq_ticks]

/-- The source state a `get_frame` call leaves behind is determined by the
source alone — the element list (gates included) has no bearing on it. -/
theorem get_frame_data (s : Stream α) :
    ((s.get_frame).2).data = (batch_get_frame s.batch s.data).2 := by
  rcases h : batch_get_frame s.batch s.data with ⟨r, d⟩
  cases r <;> simp [Stream.get_frame, h]

/-- C1: `Stream.get_frame` folds the pulled frame through the ordered element
sequence and stops at the first no-frame — appending further elements after the
point where the fold has produced no-frame cannot change the result, and a
no-frame from the source itself passes through untouched (no element is
invoked).  Moreover `run` hands the sink exactly the non-sentinel `get_frame`
results, in order, so a no-frame result is never handed to the sink. -/
theorem c1_short_circuit_and_sink_never_sees_none {α : Type}
    (es1 es2 : List (Element α)) (frame : Option α)
    (h : fold_elements es1 frame = .ok none) :
    fold_elements (es1 ++ es2) frame = .ok none ∧
    fold_elements es2 (none : Option α) = .ok none ∧
    (∀ s : Stream α, (s.run).1 = s.ticks.filterMap sink_delivered) := by
  refine ⟨?_, fold_elements_none es2, run_fst_eq_ticks⟩
  rw [fold_elements_append, h]
  exact fold_elements_none es2

/-- Witness for C1 at a concrete input: a non-fatal gate drops the frame `1`,
and the transformer appended after it does not run. -/
theorem c1_witness :
    fold_elements
      ([Element.gate (fun f => f % 2 == 0) false "is-even"] ++
        [Element.transformer (fun f => some (f + 1))]) (some (1 : Nat)) = .ok none :=
  (c1_short_circuit_and_sink_never_sees_none _ _ _ (by rfl)).1

theorem run_list_all_dropped (p : α → Bool) (name : String) :
    ∀ batch : List α, (∀ g ∈ batch, p g = false) →
      run_list [Element.gate p false name] (batch.map some) = ([], none) := by
  intro batch hall
  induction batch with
  | nil => rfl
  | cons g rest ih =>
    have hg : p g = false := hall g (by simp)
    simp only [List.map_cons, run_list, fold_elements, Element.transform, hg,
      Bool.not_false, if_true, Bool.false_eq_true, ite_false]
    exact ih (fun x hx => hall x (by simp [hx]))

/-- C3: a non-fatal gate turns a failing frame into no-frame; stream closure
delegates to the source and ignores the element list, and a `get_frame` call
leaves source state that does not depend on the elements, so a drop leaves
`is_closed` unchanged.  A stream whose every frame the gate drops runs to
normal completion (the loop keeps pulling until the source is exhausted) with
its sink never invoked. -/
theorem c3_nonfatal_gate_drops_without_closing {α : Type} (p : α → Bool)
    (name : String) (f : α) (hp : p f = false) :
    (Element.gate p false name).transform f = .ok none ∧
    (∀ (s : Stream α) (es' : List (Element α)),
      Stream.is_closed { s with elements := es' } = s.is_closed) ∧
    (∀ s : Stream α, ((s.get_frame).2).data = (batch_get_frame s.batch s.data).2) ∧
    (∀ batch : List α, batch ≠ [] → (∀ g ∈ batch, p g = false) →
      Stream.run ⟨batch.map some, none, [Element.gate p false name]⟩ = ([], none)) := by
  refine ⟨?_, fun s es' => rfl, get_frame_data, ?_⟩
  · simp [Element.transform, hp]
  · intro batch hb hall
    rw [run_fresh _ _ (by simpa using hb)]
    exact run_list_all_dropped p name batch hall

/-- Witness for C3 at a concrete input: the gate `== 5` drops `3`, and a
two-frame stream whose every frame is dropped completes with an empty sink
and no error. -/
theorem c3_witness :
    (Element.gate (fun f => f == 5) false "is-five").transform (3 : Nat) = .ok none ∧
    Stream.run ⟨[some (3 : Nat), some 4], none,
      [Element.gate (fun f => f == 5) false "is-five"]⟩ = ([], none) := by
  have h := c3_nonfatal_gate_drops_without_closing (fun f : Nat => f == 5) "is-five" 3
    (by decide)
  exact ⟨h.1, by simpa using h.2.2.2 [3, 4] (by decide) (by decide)⟩

theorem run_list_fatal_gate (p : α → Bool) (name : String) :
    ∀ l : List α, run_list [Element.gate p true name] (l.map some) =
      (l.takeWhile p,
        match l.dropWhile p with
        | [] => none
        | x :: _ => some (.gateFailed x name)) := by
  intro l
  induction l with
  | nil => rfl
  | cons x rest ih =>
    cases hx : p x <;>
      simp [run_list, fold_elements, Element.transform, hx, List.takeWhile_cons,
        List.dropWhile_cons, ih]

/-- C4: a fatal gate raises `GateFailedException` — carrying the offending
frame and the gate's identity — on a failing frame, and returns a passing frame
unchanged.  Running a stream through a fatal gate delivers exactly the frames
up to the first failure and then aborts with that exception: no further frames
are processed by that `run` invocation. -/
theorem c4_fatal_gate_aborts_run {α : Type} (p : α → Bool) (name : String) (f : α) :
    (p f = false → (Element.gate p true name).transform f = .error (.gateFailed f name)) ∧
    (p f = true → (Element.gate p true name).transform f = .ok (some f)) ∧
    (∀ l : List α, l ≠ [] →
      Stream.run ⟨l.map some, none, [Element.gate p true name]⟩ =
        (l.takeWhile p,
          match l.dropWhile p with
          | [] => none
          | x :: _ => some (.gateFailed x name))) := by
  refine ⟨fun hp => by simp [Element.transform, hp], fun hp => by simp [Element.transform, hp], ?_⟩
  intro l hl
  rw [run_fresh _ _ (by simpa using hl)]
  exact run_list_fatal_gate p name l

/-- Witness for C4 at a concrete input: the fatal gate `< 2` fails on `5`, and
running `[0, 1, 2, 3]` through it delivers `[0, 1]` and aborts at `2`. -/
theorem c4_witness :
    (Element.gate (fun x => x < 2) true "lt-two").transform (5 : Nat) =
      .error (.gateFailed 5 "lt-two") ∧
    Stream.run ⟨[some (0 : Nat), some 1, some 2, some 3], none,
      [Element.gate (fun x => x < 2) true "lt-two"]⟩ =
      ([0, 1], some (.gateFailed 2 "lt-two")) := by
  refine ⟨(c4_fatal_gate_aborts_run (fun x : Nat => decide (x < 2)) "lt-two" 5).1 (by decide), ?_⟩
  have h := (c4_fatal_gate_aborts_run (fun x : Nat => decide (x < 2)) "lt-two" 0).2.2
    [0, 1, 2, 3] (by decide)
  simpa using h

/-- The `_data` field of a fresh batch-mode source after `k` successive
`get_frame` calls (meaningful for `k ≤ batch.length`): unmaterialized at
`k = 0`, afterwards the collection minus its first `k` elements. -/
def batch_state (batch : List (Option α)) : Nat → Option (List (Option α))
  | 0 => none
  | k + 1 => some (batch.drop (k + 1))

/-- One successful step of a fresh batch source: the `k`-th call (0-based,
`k < N`) returns the `k`-th element of the collection — front removal — and
moves the state on by one. -/
theorem batch_step (batch : List (Option α)) (k : Nat) (hk : k < batch.length) :
    batch_get_frame batch (batch_state batch k) =
      (.ok (batch.getD k none), batch_state batch (k + 1)) := by
  match k with
  | 0 =>
    match batch with
    | [] => simp at hk
    | f :: rest =>
      simp [batch_get_frame, batch_is_closed, batch_state, List.getD]
  | k + 1 =>
    have hdrop := List.drop_eq_getElem_cons hk
    simp only [batch_state, batch_get_frame, batch_is_closed, Option.getD, hdrop,
      List.isEmpty_cons, Bool.false_eq_true, if_false]
    rw [List.getD_eq_getElem batch none hk]

/-- Iterating `get_frame` on a batch source: the source state after `k` more
calls (successful or not) from state `st`. -/
def batch_iter (batch : List (Option α)) (st : Option (List (Option α))) :
    Nat → Option (List (Option α))
  | 0 => st
  | k + 1 => (batch_get_frame batch (batch_iter batch st k)).2

/-- C2 (amended to collections of size `N ≥ 1`): each of the first `N` calls on
a fresh batch source succeeds with the source still open beforehand (including
before first materialization), after the `N`-th call `is_closed` is true, and
from any closed state a further `get_frame` raises `SourceClosed` and leaves
the state unchanged — so every subsequent call fails the same way. -/
theorem c2_batch_source_exactly_n_calls {α : Type} (batch : List (Option α))
    (hN : batch ≠ []) :
    (∀ k, k < batch.length →
      batch_is_closed (batch_state batch k) = false ∧
      batch_get_frame batch (batch_state batch k) =
        (.ok (batch.getD k none), batch_state batch (k + 1))) ∧
    batch_is_closed (batch_state batch batch.length) = true ∧
    (∀ st : Option (List (Option α)), batch_is_closed st = true →
      batch_get_frame batch st = (.error .sourceClosed, st)) := by
  refine ⟨fun k hk => ⟨?_, batch_step batch k hk⟩, ?_, fun st hst => ?_⟩
  · match k with
    | 0 => rfl
    | k + 1 =>
      match hdl : List.drop (k + 1) batch with
      | [] =>
        rw [List.drop_eq_nil_iff] at hdl
        omega
      | x :: xs =>
        simp [batch_state, batch_is_closed, hdl]
  · match batch, hN with
    | f :: rest, _ =>
      simp [batch_state, batch_is_closed, List.drop_length]
  · simp [batch_get_frame, hst]

/-- Witness for C2 at a concrete input: the two-element collection `[7, 8]`
serves its first frame, is closed after two calls, and then raises
`SourceClosed` leaving the state untouched. -/
theorem c2_witness :
    batch_is_closed (batch_state [some (7 : Nat), some 8] 2) = true ∧
    batch_get_frame [some (7 : Nat), some 8] (batch_state [some 7, some 8] 2) =
      (.error .sourceClosed, batch_state [some 7, some 8] 2) ∧
    batch_get_frame [some (7 : Nat), some 8] (batch_state [some 7, some 8] 0) =
      (.ok (some 7), batch_state [some 7, some 8] 1) := by
  have h := c2_batch_source_exactly_n_calls [some (7 : Nat), some 8] (by simp)
  exact ⟨h.2.1, h.2.2 _ h.2.1, by simpa using (h.1 0 (by simp)).2⟩

/-- C2 counterexample: for the empty collection (`N = 0`) the claim fails — after
its zero successful calls the source still reports open (`_data` is still
unmaterialized), and the next `get_frame` materializes the empty collection and
raises `IndexError` from `pop(0)`, not `SourceClosed`. -/
theorem c2_counterexample_empty_collection :
    batch_is_closed (batch_state ([] : List (Option Nat)) 0) = false ∧
    batch_get_frame ([] : List (Option Nat)) (batch_state [] 0) =
      (.error .indexError, some []) :=
  ⟨rfl, rfl⟩

/-- C10: batch-mode sources yield frames in FIFO order — the `k`-th successful
`get_frame` call (0-based) returns the `k`-th element of the collection the
handler returned at first materialization, by front removal. -/
theorem c10_batch_source_fifo {α : Type} (batch : List (Option α)) (k : Nat)
    (hk : k < batch.length) :
    batch_get_frame batch (batch_state batch k) =
      (.ok (batch.getD k none), batch_state batch (k + 1)) :=
  batch_step batch k hk

/-- Witness for C10 at a concrete input: the second call on `[3, 1, 4]`
returns `1`, the second element. -/
theorem c10_witness :
    batch_get_frame [some (3 : Nat), some 1, some 4]
      (batch_state [some 3, some 1, some 4] 1) =
      (.ok (some 1), batch_state [some 3, some 1, some 4] 2) := by
  simpa using c10_batch_source_fifo [some (3 : Nat), some 1, some 4] 1 (by simp)

/-- C9 (amended): a batch-mode source never reopens — a `get_frame` call on a
closed batch source raises and leaves the state unchanged, so the source stays
closed under any number of further calls.  An on-demand source's `is_closed`
merely delegates to the user-supplied closer, so it is monotone exactly when
the closer's answer sequence is. -/
theorem c9_closure_monotone {α : Type} (batch : List (Option α))
    (st : Option (List (Option α))) (h : batch_is_closed st = true) :
    batch_get_frame batch st = (.error .sourceClosed, st) ∧
    (∀ k, batch_is_closed (batch_iter batch st k) = true) ∧
    (∀ closer : Nat → Bool, (∀ i j, i ≤ j → closer i = true → closer j = true) →
      ∀ i j, i ≤ j → on_demand_is_closed closer i = true →
        on_demand_is_closed closer j = true) := by
  refine ⟨by simp [batch_get_frame, h], fun k => ?_, fun closer hm i j hij hi => hm i j hij hi⟩
  induction k with
  | zero => exact h
  | succ k ih =>
    simp only [batch_iter, batch_get_frame, ih, if_true]

/-- Witness for C9 at a concrete input: the closed state `some []` over the
collection `[1]` rejects a further call and stays closed. -/
theorem c9_witness :
    batch_get_frame [some (1 : Nat)] (some []) = (.error .sourceClosed, some []) ∧
    batch_is_closed (batch_iter [some (1 : Nat)] (some []) 3) = true := by
  have h := c9_closure_monotone [some (1 : Nat)] (some []) (by rfl)
  exact ⟨h.1, h.2.1 3⟩

/-- C9 counterexample: an on-demand source whose closer answers true on its
first call and false afterwards (a legal constructor argument — any callable is
accepted) reports closed and then open again: the code delegates to the closer
and does not enforce the invariant. -/
theorem c9_counterexample_reopening_closer :
    on_demand_is_closed (fun call => call == 0) 0 = true ∧
    on_demand_is_closed (fun call => call == 0) 1 = false :=
  ⟨rfl, rfl⟩

/-- C8: `call_handler` builds the final argument list as the claim states — with
a bound receiver (first captured argument) the runtime arguments are inserted
immediately after the receiver and before the remaining captured arguments;
otherwise the runtime arguments precede all captured positional arguments.  The
captured keyword arguments are passed through unchanged and the handler's
result is returned as-is (both visible in the equations: the handler is applied
to exactly `kwargs`, and its value is what `call_handler` yields). -/
theorem c8_binder_argument_order {α β γ : Type}
    (handler : List α → List (String × β) → γ) (receiver : α)
    (captured_tail captured args : List α) (kwargs : List (String × β)) :
    call_handler handler true (receiver :: captured_tail) kwargs args =
      some (handler (receiver :: (args ++ captured_tail)) kwargs) ∧
    call_handler handler false captured kwargs args =
      some (handler (args ++ captured) kwargs) :=
  ⟨rfl, rfl⟩

/-- The joint state of an origin stream and the stream derived from it by
`Stream.split` (model.py 72-97).  `batch`/`data` are the origin's batch-mode
source, `elements` the origin's elements ahead of the appended split
transformer (the transformer itself is last, directly before the sink, as
`split` installs it), `frames` the shared `SplitSourceContext.frames` queue
(front = oldest), and the two sink histories. -/
structure SplitSys (α : Type) where
  batch : List (Option α)
  data : Option (List (Option α))
  elements : List (Element α)
  frames : List α
  origin_sink : List α
  derived_sink : List α

/-- The origin stream's `is_closed` — its batch source's closed state. -/
def origin_is_closed (s : SplitSys α) : Bool :=
  batch_is_closed s.data

/-- `SplitSourceContext.closer` (model.py 78-79): the derived stream's source is
closed exactly when the origin stream is closed and the queue is empty. -/
def derived_is_closed (s : SplitSys α) : Bool :=
  origin_is_closed s && s.frames.isEmpty

/-- One iteration of the origin stream's `run` loop: exit silently when closed;
otherwise pull from the source, fold through the elements, and — via the split
transformer appended last — mirror a surviving frame into the queue before it
reaches the sink (`transformer` at model.py 84-87 does `put_nowait` and returns
the frame unchanged). -/
def origin_tick (s : SplitSys α) : Except (StromError α) Unit × SplitSys α :=
  if origin_is_closed s then
    (.ok (), s)
  else
    match batch_get_frame s.batch s.data with
    | (.error e, d) => (.error e, { s with data := d })
    | (.ok frame, d) =>
      match fold_elements s.elements frame with
      | .error e => (.error e, { s with data := d })
      | .ok none => (.ok (), { s with data := d })
      | .ok (some f) =>
        (.ok (),
          { s with
              data := d
              frames := s.frames ++ [f]
              origin_sink := s.origin_sink ++ [f] })

/-- One iteration of the derived stream's `run` loop: exit silently when its
source is closed; otherwise its on-demand source handler is
`SplitSourceContext.source` (model.py 81-82), `frames.get_nowait()`, which
raises `queue.Empty` on an empty queue and otherwise yields the oldest queued
frame, which (the derived stream having no elements) goes to its sink. -/
def derived_tick (s : SplitSys α) : Except (StromError α) Unit × SplitSys α :=
  if derived_is_closed s then
    (.ok (), s)
  else
    match s.frames with
    | [] => (.error .queueEmpty, s)
    | f :: rest =>
      (.ok (), { s with frames := rest, derived_sink := s.derived_sink ++ [f] })

/-- Interleave the two run loops under an arbitrary schedule (`true` = one
origin iteration, `false` = one derived iteration), stopping at the first
exception. -/
def split_exec : List Bool → SplitSys α → SplitSys α × Option (StromError α)
  | [], s => (s, none)
  | b :: sched, s =>
    match (if b then origin_tick s else derived_tick s) with
    | (.error e, s') => (s', some e)
    | (.ok _, s') => split_exec sched s'

theorem origin_tick_invariant (s s' : SplitSys α)
    (h : origin_tick s = (.ok (), s'))
    (hinv : s.origin_sink = s.derived_sink ++ s.frames) :
    s'.origin_sink = s'.derived_sink ++ s'.frames := by
  unfold origin_tick at h
  split at h
  · simp only [Prod.mk.injEq, true_and] at h
    subst h
    exact hinv
  · split at h
    · simp at h
    · split at h
      · simp at h
      · simp only [Prod.mk.injEq, true_and] at h
        subst h
        simpa using hinv
      · simp only [Prod.mk.injEq, true_and] at h
        subst h
        simp [hinv]

theorem derived_tick_invariant (s s' : SplitSys α)
    (h : derived_tick s = (.ok (), s'))
    (hinv : s.origin_sink = s.derived_sink ++ s.frames) :
    s'.origin_sink = s'.derived_sink ++ s'.frames := by
  unfold derived_tick at h
  split at h
  · simp only [Prod.mk.injEq, true_and] at h
    subst h
    exact hinv
  · split at h
    · simp at h
    · rename_i f rest heq
      simp only [Prod.mk.injEq, true_and] at h
      subst h
      simp [hinv, heq]

theorem split_exec_invariant (sched : List Bool) :
    ∀ s s' : SplitSys α, s.origin_sink = s.derived_sink ++ s.frames →
      split_exec sched s = (s', none) →
      s'.origin_sink = s'.derived_sink ++ s'.frames := by
  induction sched with
  | nil =>
    intro s s' hinv h
    unfold split_exec at h
    simp only [Prod.mk.injEq] at h
    rw [← h.1]
    exact hinv
  | cons b sched ih =>
    intro s s' hinv h
    unfold split_exec at h
    rcases htick : (if b then origin_tick s else derived_tick s) with ⟨r, t⟩
    rw [htick] at h
    cases r with
    | error e => simp at h
    | ok u =>
      cases u
      refine ih t s' ?_ h
      cases b with
      | true => exact origin_tick_invariant s t (by simpa using htick) hinv
      | false => exact derived_tick_invariant s t (by simpa using htick) hinv

/-- C7: under any interleaving of the two run loops that finishes without an
exception and leaves the derived stream closed (origin exhausted and queue
drained), the derived stream's sink has received exactly the origin sink's
sequence, in the same order.  The derived source's closing condition is,
definitionally, "origin stream closed AND split buffer empty". -/
theorem c7_split_mirrors_origin_sequence {α : Type} (batch : List (Option α))
    (es : List (Element α)) (sched : List Bool) (s' : SplitSys α)
    (h : split_exec sched ⟨batch, none, es, [], [], []⟩ = (s', none))
    (hclosed : derived_is_closed s' = true) :
    s'.derived_sink = s'.origin_sink ∧
    (∀ s : SplitSys α, derived_is_closed s = (origin_is_closed s && s.frames.isEmpty)) := by
  refine ⟨?_, fun s => rfl⟩
  have hinv := split_exec_invariant sched ⟨batch, none, es, [], [], []⟩ s' rfl h
  have hf : s'.frames = [] := by
    have := (Bool.and_eq_true _ _).mp hclosed
    simpa [List.isEmpty_eq_true] using this.2
  rw [hinv, hf, List.append_nil]

/-- Witness for C7 at a concrete input: origin emits 1, 2, 3; running the
origin to exhaustion and then draining the derived stream reproduces
`[1, 2, 3]` at the derived sink. -/
theorem c7_witness :
    split_exec [true, true, true, false, false, false]
      (⟨[some 1, some 2, some 3], none, [], [], [], []⟩ : SplitSys Nat) =
      (⟨[some 1, some 2, some 3], some [], [], [], [1, 2, 3], [1, 2, 3]⟩, none) ∧
    (⟨[some 1, some 2, some 3], some [], [], [], [1, 2, 3], [1, 2, 3]⟩
      : SplitSys Nat).derived_sink =
      (⟨[some 1, some 2, some 3], some [], [], [], [1, 2, 3], [1, 2, 3]⟩
        : SplitSys Nat).origin_sink :=
  ⟨rfl,
    (c7_split_mirrors_origin_sequence [some 1, some 2, some 3] []
      [true, true, true, false, false, false] _ rfl rfl).1⟩

/-- `Barrier._query_frame_from_streams` (model.py 296-298): for each registered
stream in order, a closed stream contributes no-frame and an open one is
pulled; a raising pull aborts the comprehension (streams already visited stay
advanced, the mapping is discarded).  Returns the assembled name-to-frame
mapping, the updated streams, and the exception if one was raised. -/
def barrier_query : List (String × Stream α) →
    List (String × Option α) × List (String × Stream α) × Option (StromError α)
  | [] => ([], [], none)
  | (n, st) :: rest =>
    if st.is_closed then
      let (m, ss, e) := barrier_query rest
      ((n, none) :: m, (n, st) :: ss, e)
    else
      match st.get_frame with
      | (.error e, st') => ([], (n, st') :: rest, some e)
      | (.ok f, st') =>
        let (m, ss, e) := barrier_query rest
        ((n, f) :: m, (n, st') :: ss, e)

/-- A `Barrier` (model.py 262-305): the windowing handler receives the whole
buffer and may mutate it, which we embed as it returning the decision together
with the buffer it leaves behind; `streams` is the name-to-stream mapping
(`_streams`), `queue` the internal buffer (`_queue`, front = oldest). -/
structure Barrier (α : Type) where
  handler : List (List (String × Option α)) → Bool × List (List (String × Option α))
  streams : List (String × Stream α)
  queue : List (List (String × Option α))

/-- `Barrier.is_closed` (model.py 303-305): closed when all source streams are
closed. -/
def Barrier.is_closed (b : Barrier α) : Bool :=
  b.streams.all (fun ns => ns.2.is_closed)

/-- `Barrier.get_frame` (model.py 287-294): assemble a mapping from the
streams, append it to `_queue`, invoke the handler on the whole queue; if the
barrier is open, `pop(0)` the (possibly handler-mutated) queue — `IndexError`
if the handler emptied it — else return `None` (Python's implicit return),
keeping the queue as the handler left it.  No closed-check is performed. -/
def Barrier.get_frame (b : Barrier α) :
    Except (StromError α) (Option (List (String × Option α))) × Barrier α :=
  match barrier_query b.streams with
  | (_, ss, some e) => (.error e, { b with streams := ss })
  | (m, ss, none) =>
    match b.handler (b.queue ++ [m]) with
    | (true, []) => (.error .indexError, { b with streams := ss, queue := [] })
    | (true, x :: rest) => (.ok (some x), { b with streams := ss, queue := rest })
    | (false, q') => (.ok none, { b with streams := ss, queue := q' })

theorem barrier_query_all_closed (streams : List (String × Stream α))
    (h : streams.all (fun ns => ns.2.is_closed) = true) :
    barrier_query streams = (streams.map (fun ns => (ns.1, none)), streams, none) := by
  induction streams with
  | nil => rfl
  | cons ns rest ih =>
    obtain ⟨n, st⟩ := ns
    simp only [List.all_cons, Bool.and_eq_true] at h
    simp [barrier_query, h.1, ih h.2]

/-- C5: `Barrier.get_frame` appends the newly assembled mapping to the buffer
and invokes the windowing handler on the entire accumulated buffer
(`queue ++ [m]`, not just `m`); if the handler opens the barrier the oldest
entry of the (possibly handler-mutated) buffer is removed and returned — FIFO
release — and otherwise no-frame is returned and the buffer is retained
exactly as the handler left it. -/
theorem c5_barrier_buffer_and_fifo {α : Type} (b : Barrier α)
    (m : List (String × Option α)) (ss : List (String × Stream α))
    (hq : barrier_query b.streams = (m, ss, none)) :
    (∀ q', b.handler (b.queue ++ [m]) = (false, q') →
      b.get_frame = (.ok none, { b with streams := ss, queue := q' })) ∧
    (∀ x rest, b.handler (b.queue ++ [m]) = (true, x :: rest) →
      b.get_frame = (.ok (some x), { b with streams := ss, queue := rest })) := by
  constructor
  · intro q' hh
    unfold Barrier.get_frame
    rw [hq]
    simp only [hh]
  · intro x rest hh
    unfold Barrier.get_frame
    rw [hq]
    simp only [hh]

/-- Witness for C5 at a concrete input: with one already-buffered mapping and
an always-open identity handler, the next call appends the freshly pulled
mapping and releases the older one first (FIFO). -/
theorem c5_witness :
    Barrier.get_frame
      (⟨fun q => (true, q), [("a", (⟨[some 1], none, []⟩ : Stream Nat))],
        [[("a", some 0)]]⟩ : Barrier Nat) =
      (.ok (some [("a", some 0)]),
        ⟨fun q => (true, q), [("a", ⟨[some 1], some [], []⟩)],
          [[("a", some 1)]]⟩) :=
  (c5_barrier_buffer_and_fifo _ _ _ rfl).2 _ _ rfl

/-- C6 (amended): a Barrier does not follow the Source closure contract — when
`is_closed()` is true (every constituent stream closed) `get_frame` raises no
`SourceClosed`: it assembles the all-no-frame mapping, appends it to the
buffer, and answers according to the windowing handler. -/
theorem c6_closed_barrier_still_serves {α : Type} (b : Barrier α)
    (h : b.is_closed = true) :
    (b.get_frame).1 ≠ .error .sourceClosed ∧
    barrier_query b.streams =
      (b.streams.map (fun ns => (ns.1, none)), b.streams, none) := by
  have hq := barrier_query_all_closed b.streams h
  refine ⟨?_, hq⟩
  unfold Barrier.get_frame
  rw [hq]
  rcases hh : b.handler (b.queue ++ [b.streams.map (fun ns => (ns.1, none))])
    with ⟨dec, q'⟩
  cases dec
  · simp [hh]
  · cases q' <;> simp [hh]

/-- Witness for C6's amended statement at a concrete input: a barrier over a
single exhausted stream answers without raising `SourceClosed`. -/
theorem c6_witness :
    (Barrier.get_frame
      (⟨fun q => (true, q), [("a", (⟨[], some [], []⟩ : Stream Nat))],
        [[("a", some 5)]]⟩ : Barrier Nat)).1 ≠ .error .sourceClosed :=
  (c6_closed_barrier_still_serves _ (by rfl)).1

/-- C6 counterexample: a barrier whose only stream is closed has
`is_closed() = true`, yet `get_frame` does not fail with `SourceClosed` — with
a never-open handler it returns no-frame (and buffers the all-no-frame
mapping). -/
theorem c6_counterexample_no_closed_check :
    Barrier.is_closed
      (⟨fun q => (false, q), [("a", (⟨[], some [], []⟩ : Stream Nat))], []⟩
        : Barrier Nat) = true ∧
    (Barrier.get_frame
      (⟨fun q => (false, q), [("a", (⟨[], some [], []⟩ : Stream Nat))], []⟩
        : Barrier Nat)).1 = .ok none :=
  ⟨rfl, rfl⟩

end Strom
